import Mathlib

/-
Verification of the financial content access-control filter of the
Secure-Enterprise-Document-Chatbot repository.

The development shallowly embeds `utils/financial_filter.py`
(class `FinancialContentFilter`) in Lean 4:

  * a small backtracking regular-expression engine faithful to the
    fragment of Python `re` used by the source (greedy quantifiers,
    leftmost match, first-alternative priority, word boundaries,
    case-insensitive literals, `re.search` and global `re.sub`);
  * the five pattern libraries of the source, transcribed regex by regex;
  * `analyze_query`, `determine_action`, `process_query`,
    `verify_email_in_context`, `log_sensitive_query` and
    `_filter_salary_from_person_response`.

The optional LLM classifier is modelled by an `Option IntentClassification`
argument: `none` models an absent classifier or a raised exception
(the two code paths of the source, unified analyzer and fallback
classifier, apply the same updates to the analysis, lines 324-403 of the
source, so one optional result models both).  Machine floats of the
source (classifier confidence) are modelled by rationals; the only
comparison performed on them is against the literal 0.8, which is exact
in both representations.  `datetime.now()` is modelled by an explicit
timestamp argument.
-/

namespace SecureDocChat

/-- Strings are modelled as lists of characters. -/
abbrev Str := List Char

/-- The apostrophe character. -/
def apos : Char := Char.ofNat 39

/-- Python `s.lower()` on the ASCII fragment used by the source. -/
def lowerStr (s : Str) : Str := s.map Char.toLower

/-- Does `a` lead (start) list `b`? -/
def leadsWith : Str → Str → Bool
  | [], _ => true
  | _ :: _, [] => false
  | a :: as, b :: bs => a = b && leadsWith as bs

/-- Python substring containment `needle in hay`. -/
def isSubstr (needle : Str) : Str → Bool
  | [] => leadsWith needle []
  | c :: t => leadsWith needle (c :: t) || isSubstr needle t

/-- Python `\w` on ASCII text: letters, digits, underscore. -/
def isWordChar (c : Char) : Bool := c.isAlphanum || c = '_'

/-- Regular expressions, covering the fragment used by
`financial_filter.py`:  character classes, concatenation, prioritized
alternation, greedy Kleene star, one capture group, word boundary. -/
inductive Regex where
  | fail : Regex
  | eps : Regex
  | cls (p : Char → Bool) : Regex
  | cat (r₁ r₂ : Regex) : Regex
  | alt (r₁ r₂ : Regex) : Regex
  | star (r : Regex) : Regex
  | grp (r : Regex) : Regex
  | wb : Regex

/-- Matcher state: characters before the current position (reversed),
characters after it, and the text captured by group 1, if any. -/
structure MState where
  rev : Str
  rest : Str
  cap : Option Str
deriving Repr

/-- Word-boundary test at the position between `rev` (reversed) and
`rest`, as in Python `\b`. -/
def atBoundary (rev rest : Str) : Bool :=
  let l := match rev with | c :: _ => isWordChar c | [] => false
  let r := match rest with | c :: _ => isWordChar c | [] => false
  l != r

/-- Greedy star iteration for a fixed step function: prefer one more
iteration, then stop.  The fuel bound used below, `rest.length + 1`, is
exact for the patterns of the source, whose starred bodies always
consume at least one character per iteration. -/
def runStar (step : MState → List MState) : Nat → MState → List MState
  | 0, s => [s]
  | n + 1, s => ((step s).flatMap (runStar step n)) ++ [s]

/-- Run a regex from a state, returning all reachable states in
backtracking priority order (first alternative first, greedy
quantifiers longest first) — the order Python tries them in, so the
head of the list is the match Python commits to. -/
def Regex.run : Regex → MState → List MState
  | .fail, _ => []
  | .eps, s => [s]
  | .cls p, s =>
      match s.rest with
      | [] => []
      | c :: t => if p c then [⟨c :: s.rev, t, s.cap⟩] else []
  | .cat r₁ r₂, s => (r₁.run s).flatMap r₂.run
  | .alt r₁ r₂, s => r₁.run s ++ r₂.run s
  | .star r, s => runStar r.run (s.rest.length + 1) s
  | .grp r, s =>
      (r.run s).map fun s' =>
        { s' with cap := some (s.rest.take (s.rest.length - s'.rest.length)) }
  | .wb, s => if atBoundary s.rev s.rest then [s] else []

/-- `re.search` scanning: try each start position left to right,
returning the first matching state (Python leftmost-match rule). -/
def searchFrom (r : Regex) : Str → Str → Option MState
  | rev, [] => (r.run ⟨rev, [], none⟩).head?
  | rev, c :: t =>
      match (r.run ⟨rev, c :: t, none⟩).head? with
      | some st => some st
      | none => searchFrom r (c :: rev) t

/-- First match state of `r` anywhere in `s`, Python `pattern.search(s)`. -/
def Regex.searchSt (r : Regex) (s : Str) : Option MState := searchFrom r [] s

/-- Boolean form of `pattern.search(s)`. -/
def Regex.searchB (r : Regex) (s : Str) : Bool := (r.searchSt s).isSome

/-- One scanning pass of Python `pattern.sub(marker, s)`: replace every
non-overlapping match, scanning left to right, matching against the
original text.  The source patterns never match the empty string; the
dead empty-match branch mirrors Python (replace, copy one character). -/
def subScan (r : Regex) (marker : Str) : Nat → Str → Str → Str
  | 0, _, rest => rest
  | fuel + 1, rev, rest =>
    match (r.run ⟨rev, rest, none⟩).head? with
    | some st =>
        if st.rest.length < rest.length then
          marker ++
            subScan r marker fuel
              ((rest.take (rest.length - st.rest.length)).reverse ++ rev) st.rest
        else
          match rest with
          | [] => marker
          | c :: t => marker ++ c :: subScan r marker fuel (c :: rev) t
    | none =>
        match rest with
        | [] => []
        | c :: t => c :: subScan r marker fuel (c :: rev) t

/-- Python `pattern.sub(marker, s)` (global substitution). -/
def Regex.subAll (r : Regex) (marker : Str) (s : Str) : Str :=
  subScan r marker (s.length + 1) [] s

/-- Case-sensitive single character. -/
def chrR (c : Char) : Regex := .cls fun x => x = c

/-- Case-insensitive single character (`re.IGNORECASE` literal). -/
def chriR (c : Char) : Regex := .cls fun x => x.toLower = c.toLower

/-- Case-sensitive literal word. -/
def lits (s : String) : Regex := (s.data.map chrR).foldr .cat .eps

/-- Case-insensitive literal word. -/
def liti (s : String) : Regex := (s.data.map chriR).foldr .cat .eps

/-- Sequence of regexes. -/
def seqR (l : List Regex) : Regex := l.foldr .cat .eps

/-- Prioritized alternation of a list (first element tried first). -/
def altsR (l : List Regex) : Regex := l.foldr .alt .fail

/-- Greedy `r?`. -/
def Regex.opt (r : Regex) : Regex := .alt r .eps

/-- Greedy `r+`. -/
def Regex.plus (r : Regex) : Regex := .cat r (.star r)

/-- Python `\s` on the ASCII fragment. -/
def wsp : Regex := .cls fun c =>
  c = ' ' || c = '\t' || c = '\n' || c = '\r' || c = Char.ofNat 11 || c = Char.ofNat 12

/-- Python `\d`. -/
def digitR : Regex := .cls Char.isDigit

/-- Python `.` (any character except newline). -/
def dotR : Regex := .cls fun c => c ≠ '\n'

/-- Character class from an explicit list, case-insensitively. -/
def clsOfCI (l : List Char) : Regex := .cls fun c => l.any fun a => c.toLower = a.toLower

/-- The currency class `[\$€£¥]` of the source. -/
def currency : Regex := .cls fun c => c = '$' || c = '€' || c = '£' || c = '¥'

/-- `[A-Z]` and `[a-z]` under `re.IGNORECASE`: any ASCII letter. -/
def alphaCI : Regex := .cls Char.isAlpha

/-- Case-sensitive `[A-Z]`. -/
def ucLetter : Regex := .cls fun c => 'A' ≤ c && c ≤ 'Z'

/-- Case-sensitive `[a-z]`. -/
def lcLetter : Regex := .cls fun c => 'a' ≤ c && c ≤ 'z'

/-- `\s+`. -/
def wsP : Regex := wsp.plus

/-- `\s*`. -/
def wsS : Regex := .star wsp

/-- Search a list of compiled patterns: `any(p.search(q) for p in ps)`. -/
def searchAnyB (ps : List Regex) (s : Str) : Bool := ps.any fun p => p.searchB s

/-- First pattern (in list order) with a match anywhere in `s`,
returning its match state — the `for pattern: if pattern.search: break`
idiom of the source. -/
def firstMatch : List Regex → Str → Option MState
  | [], _ => none
  | p :: ps, s =>
      match p.searchSt s with
      | some st => some st
      | none => firstMatch ps s

/-- `any(kw in s for kw in kws)` (Python substring containment). -/
def hasAnyKw (kws : List Str) (s : Str) : Bool := kws.any fun k => isSubstr k s

/-- Python `str.strip()`. -/
def stripStr (s : Str) : Str :=
  ((s.dropWhile Char.isWhitespace).reverse.dropWhile Char.isWhitespace).reverse

/-- Words joined by `\s+`. -/
def phr (ws : List String) : Regex := seqR ((ws.map liti).intersperse wsP)

/-- Case-insensitive alternation of literal words, in list order. -/
def alti (ws : List String) : Regex := altsR (ws.map liti)

/-- A word with an optional plural `s?`. -/
def optS (s : String) : Regex := .cat (liti s) (Regex.opt (chriR 's'))

/-- `(?:the\s+)?`. -/
def optThe : Regex := Regex.opt (.cat (liti "the") wsP)

/-- The amount tail used in several patterns: `[\$€£¥]?\d+[,.]?\d*`. -/
def amtTail : Regex :=
  seqR [Regex.opt currency, digitR.plus, Regex.opt (clsOfCI [',', '.']), .star digitR]

/-- The trailing rate of `makes/earns/paid` patterns:
`\s*(?:per|a|an)?\s*(?:year|month|week|annually)?`. -/
def rateTail : Regex :=
  seqR [wsS, Regex.opt (alti ["per", "a", "an"]),
        wsS, Regex.opt (alti ["year", "month", "week", "annually"])]

/-- `self.financial_patterns`, financial_filter.py lines 92-110, in
source order, each compiled with `re.IGNORECASE`. -/
def financial_patterns : List Regex := [
  -- (?:[\$€£¥])[\d,.]+
  .cat currency (Regex.plus (.cls fun c => c.isDigit || c = ',' || c = '.')),
  -- \d+(?:\.\d+)?\s*(?:dollars|euros|pounds)
  seqR [digitR.plus, Regex.opt (.cat (chrR '.') digitR.plus), wsS,
        alti ["dollars", "euros", "pounds"]],
  -- \d+(?:\.\d+)?[kKmMbB]\b
  seqR [digitR.plus, Regex.opt (.cat (chrR '.') digitR.plus), clsOfCI ['k', 'm', 'b'], .wb],
  -- (?:revenue|profit|budget|expense|cost)\s+of\s+[\$€£¥]?\d+
  seqR [alti ["revenue", "profit", "budget", "expense", "cost"], wsP, liti "of", wsP,
        Regex.opt currency, digitR.plus],
  -- (?:revenue|profit|budget|expense|cost)\s+[\$€£¥]?\d+
  seqR [alti ["revenue", "profit", "budget", "expense", "cost"], wsP,
        Regex.opt currency, digitR.plus],
  -- salary\s+(?:is|of|equals|:)\s+[\$€£¥]?\d+[,.]?\d*
  seqR [liti "salary", wsP, alti ["is", "of", "equals", ":"], wsP, amtTail],
  -- annual\s+salary\s+(?:is|of|equals|:)\s+[\$€£¥]?\d+[,.]?\d*
  seqR [liti "annual", wsP, liti "salary", wsP, alti ["is", "of", "equals", ":"], wsP, amtTail],
  -- makes\s+[\$€£¥]?\d+[,.]?\d*\s*(?:per|a|an)?\s*(?:year|month|week|annually)?
  seqR [liti "makes", wsP, amtTail, rateTail],
  -- earns\s+[\$€£¥]?\d+[,.]?\d*\s*(?:per|a|an)?\s*(?:year|month|week|annually)?
  seqR [liti "earns", wsP, amtTail, rateTail],
  -- paid\s+[\$€£¥]?\d+[,.]?\d*\s*(?:per|a|an)?\s*(?:year|month|week|annually)?
  seqR [liti "paid", wsP, amtTail, rateTail],
  -- with\s+an?\s+annual\s+salary\s+of\s+[\$€£¥]?\d+[,.]?\d*
  seqR [liti "with", wsP, liti "a", Regex.opt (chriR 'n'), wsP, liti "annual", wsP,
        liti "salary", wsP, liti "of", wsP, amtTail],
  -- salary\s+of\s+[\$€£¥]?\d+[,.]?\d*
  seqR [liti "salary", wsP, liti "of", wsP, amtTail],
  -- compensation\s+of\s+[\$€£¥]?\d+[,.]?\d*
  seqR [liti "compensation", wsP, liti "of", wsP, amtTail],
  -- income\s+of\s+[\$€£¥]?\d+[,.]?\d*
  seqR [liti "income", wsP, liti "of", wsP, amtTail],
  -- [\$€£¥]\d{2,3},\d{3}
  seqR [currency, digitR, digitR, Regex.opt digitR, chrR ',', digitR, digitR, digitR],
  -- [\$€£¥]\d{2,3}\.\d{3}
  seqR [currency, digitR, digitR, Regex.opt digitR, chrR '.', digitR, digitR, digitR],
  -- \d{2,3},\d{3}\s*(?:dollars|USD|\$)
  seqR [digitR, digitR, Regex.opt digitR, chrR ',', digitR, digitR, digitR, wsS,
        alti ["dollars", "USD", "$"]]
]

/-- `self.self_reference_patterns`, lines 115-121, `re.IGNORECASE`. -/
def self_reference_patterns : List Regex := [
  -- \bmy\s+(?:salary|compensation|pay|income|earnings|money)\b
  seqR [.wb, liti "my", wsP,
        alti ["salary", "compensation", "pay", "income", "earnings", "money"], .wb],
  -- \bi\s+(?:make|earn|get\s+paid|receive|am\s+paid)\b
  seqR [.wb, liti "i", wsP,
        altsR [liti "make", liti "earn", phr ["get", "paid"], liti "receive",
               phr ["am", "paid"]], .wb],
  -- \bhow\s+much\s+(?:do\s+)?i\s+(?:make|earn|get\s+paid|receive)\b
  seqR [.wb, liti "how", wsP, liti "much", wsP, Regex.opt (.cat (liti "do") wsP),
        liti "i", wsP,
        altsR [liti "make", liti "earn", phr ["get", "paid"], liti "receive"], .wb],
  -- what\s+(?:is|\x27s)\s+my\s+(?:salary|compensation|pay|income|earnings)\b
  seqR [liti "what", wsP, altsR [liti "is", .cat (chrR apos) (chriR 's')], wsP,
        liti "my", wsP,
        alti ["salary", "compensation", "pay", "income", "earnings"], .wb],
  -- how\s+much\s+(?:money|salary|compensation)\s+do\s+i\s+(?:make|earn|get)\b
  seqR [liti "how", wsP, liti "much", wsP, alti ["money", "salary", "compensation"],
        wsP, liti "do", wsP, liti "i", wsP, alti ["make", "earn", "get"], .wb]
]

/-- The name atom `[A-Z][a-z]+(?:\s+[A-Z][a-z]+)?` of the person and
aggregate patterns.  Under `re.IGNORECASE` both classes match any ASCII
letter. -/
def nameCI : Regex :=
  seqR [alphaCI, alphaCI.plus, Regex.opt (seqR [wsP, alphaCI, alphaCI.plus])]

/-- The capture group `([A-Z][a-z]+(?:\s+[A-Z][a-z]+)?)`. -/
def pers : Regex := .grp nameCI

/-- `[\x27s]*` (apostrophe or letter s, repeated). -/
def posTail : Regex := .star (clsOfCI [apos, 's'])

/-- `self.person_reference_patterns`, lines 125-167, in source order
(most specific first — the analyzer takes the first pattern with a
match), `re.IGNORECASE`.  Every pattern contains exactly one capture
group, transcribed with `pers`. -/
def person_reference_patterns : List Regex := [
  -- what\s+is\s+(?:the\s+)?salary of (N)
  seqR [liti "what", wsP, liti "is", wsP, optThe, liti "salary of ", pers],
  -- whats?\s+(?:the\s+)?salary of (N)
  seqR [liti "what", Regex.opt (chriR 's'), wsP, optThe, liti "salary of ", pers],
  -- salary of (N)
  seqR [liti "salary of ", pers],
  -- (?:the\s+)?salary of (N)
  seqR [optThe, liti "salary of ", pers],
  -- (N) salary
  seqR [pers, liti " salary"],
  -- (N)[\x27s]* salary
  seqR [pers, posTail, liti " salary"],
  -- (N) compensation
  seqR [pers, liti " compensation"],
  -- (N) pay
  seqR [pers, liti " pay"],
  -- how much does (N) make
  seqR [liti "how much does ", pers, liti " make"],
  -- what is (N)[\x27s]* salary
  seqR [liti "what is ", pers, posTail, liti " salary"],
  -- what does (N) earn
  seqR [liti "what does ", pers, liti " earn"],
  -- how much does (N) earn
  seqR [liti "how much does ", pers, liti " earn"],
  -- (N)\x27s income
  seqR [pers, chrR apos, liti "s income"],
  -- (N) income
  seqR [pers, liti " income"],
  -- how much money does (N) make
  seqR [liti "how much money does ", pers, liti " make"],
  -- what does (N) take home
  seqR [liti "what does ", pers, liti " take home"],
  -- how much does (N) take home
  seqR [liti "how much does ", pers, liti " take home"],
  -- (N)[\x27s]* take home
  seqR [pers, posTail, liti " take home"],
  -- what is (N)[\x27s]* take home
  seqR [liti "what is ", pers, posTail, liti " take home"],
  -- (N) take home (?:pay|salary|income)
  seqR [pers, liti " take home ", alti ["pay", "salary", "income"]],
  -- what does (N) (?:make|earn|get)\s+(?:monthly|weekly|daily)
  seqR [liti "what does ", pers, liti " ", alti ["make", "earn", "get"], wsP,
        alti ["monthly", "weekly", "daily"]],
  -- how much does (N) (?:make|earn|get)\s+(?:monthly|weekly|daily)
  seqR [liti "how much does ", pers, liti " ", alti ["make", "earn", "get"], wsP,
        alti ["monthly", "weekly", "daily"]],
  -- (N)[\x27s]* (?:monthly|weekly|daily) (?:pay|salary|income)
  seqR [pers, posTail, liti " ", alti ["monthly", "weekly", "daily"], liti " ",
        alti ["pay", "salary", "income"]],
  -- what is (N)[\x27s]* (?:monthly|weekly|daily) (?:pay|salary|income)
  seqR [liti "what is ", pers, posTail, liti " ", alti ["monthly", "weekly", "daily"],
        liti " ", alti ["pay", "salary", "income"]],
  -- who is (N)
  seqR [liti "who is ", pers],
  -- tell me about (N)
  seqR [liti "tell me about ", pers],
  -- information about (N)
  seqR [liti "information about ", pers],
  -- how much does (N) earn annually
  seqR [liti "how much does ", pers, liti " earn annually"],
  -- (N) earn annually
  seqR [pers, liti " earn annually"],
  -- (N) earns annually
  seqR [pers, liti " earns annually"],
  -- what does (N) earn annually
  seqR [liti "what does ", pers, liti " earn annually"],
  -- (N)[\x27s]* pay details
  seqR [pers, posTail, liti " pay details"],
  -- show me (N)[\x27s]* pay details
  seqR [liti "show me ", pers, posTail, liti " pay details"],
  -- (N)[\x27s]* compensation package
  seqR [pers, posTail, liti " compensation package"],
  -- what[\x27s]* (N)[\x27s]* compensation package
  seqR [liti "what", posTail, liti " ", pers, posTail, liti " compensation package"],
  -- (N)[\x27s]* total remuneration
  seqR [pers, posTail, liti " total remuneration"],
  -- tell me (N)[\x27s]* total remuneration
  seqR [liti "tell me ", pers, posTail, liti " total remuneration"],
  -- tell me what (N) annually
  seqR [liti "tell me what ", pers, liti " annually"],
  -- what (N) annually
  seqR [liti "what ", pers, liti " annually"],
  -- is (N) in the .+ bracket
  seqR [liti "is ", pers, liti " in the ", dotR.plus, liti " bracket"],
  -- does (N) fall in
  seqR [liti "does ", pers, liti " fall in"]
]

/-- The verb alternation `(?:makes|earns|gets|is paid|receives)`. -/
def payVerb : Regex := alti ["makes", "earns", "gets", "is paid", "receives"]

/-- `self.aggregate_salary_patterns`, lines 171-206, in source order,
`re.IGNORECASE`. -/
def aggregate_salary_patterns : List Regex := [
  -- who\s+V\s+(?:the\s+)?(?:most|highest|greatest|least|lowest|minimum|maximum)
  seqR [liti "who", wsP, payVerb, wsP, optThe,
        alti ["most", "highest", "greatest", "least", "lowest", "minimum", "maximum"]],
  -- who\s+V\s+(?:less|more)\s+than
  seqR [liti "who", wsP, payVerb, wsP, alti ["less", "more"], wsP, liti "than"],
  -- who\s+V\s+(?:below|above|under|over)
  seqR [liti "who", wsP, payVerb, wsP, alti ["below", "above", "under", "over"]],
  -- who\s+V\s+(?:less|more)\s+than\s+(?:the\s+)?(?:average|avg|median)
  seqR [liti "who", wsP, payVerb, wsP, alti ["less", "more"], wsP, liti "than", wsP,
        optThe, alti ["average", "avg", "median"]],
  -- who\s+V\s+(?:below|above|under|over)\s+(?:the\s+)?(?:average|avg|median)
  seqR [liti "who", wsP, payVerb, wsP, alti ["below", "above", "under", "over"], wsP,
        optThe, alti ["average", "avg", "median"]],
  -- who\s+V\s+the\s+(?:less|more)\s+than
  seqR [liti "who", wsP, payVerb, wsP, liti "the", wsP, alti ["less", "more"], wsP,
        liti "than"],
  -- who\s+V\s+the\s+(?:less|more)\s+than\s+(?:the\s+)?(?:average|avg|median)
  seqR [liti "who", wsP, payVerb, wsP, liti "the", wsP, alti ["less", "more"], wsP,
        liti "than", wsP, optThe, alti ["average", "avg", "median"]],
  -- who\s+V\s+the\s+(?:least|most)
  seqR [liti "who", wsP, payVerb, wsP, liti "the", wsP, alti ["least", "most"]],
  -- who\s+(?:is\s+paid|gets\s+paid)\s+(?:the\s+)?(?:most|highest|least|lowest)
  seqR [liti "who", wsP, altsR [phr ["is", "paid"], phr ["gets", "paid"]], wsP, optThe,
        alti ["most", "highest", "least", "lowest"]],
  -- who\s+(?:is\s+paid|gets\s+paid)\s+(?:less|more)\s+than
  seqR [liti "who", wsP, altsR [phr ["is", "paid"], phr ["gets", "paid"]], wsP,
        alti ["less", "more"], wsP, liti "than"],
  -- who\s+(?:is\s+paid|gets\s+paid)\s+(?:below|above|under|over)
  seqR [liti "who", wsP, altsR [phr ["is", "paid"], phr ["gets", "paid"]], wsP,
        alti ["below", "above", "under", "over"]],
  -- who\s+V\s+(?:the\s+)?(?:average|avg|median)
  seqR [liti "who", wsP, payVerb, wsP, optThe, alti ["average", "avg", "median"]],
  -- who\s+V\s+(?:around|about|approximately)\s+(?:the\s+)?(?:average|avg|median)
  seqR [liti "who", wsP, payVerb, wsP, alti ["around", "about", "approximately"], wsP,
        optThe, alti ["average", "avg", "median"]],
  -- highest\s+(?:paid|salary|earner)
  seqR [liti "highest", wsP, alti ["paid", "salary", "earner"]],
  -- lowest\s+(?:paid|salary|earner)
  seqR [liti "lowest", wsP, alti ["paid", "salary", "earner"]],
  -- (?:maximum|minimum)\s+salary
  seqR [alti ["maximum", "minimum"], wsP, liti "salary"],
  -- (?:most|least)\s+(?:paid|salary)
  seqR [alti ["most", "least"], wsP, alti ["paid", "salary"]],
  -- average\s+salary
  phr ["average", "salary"],
  -- median\s+salary
  phr ["median", "salary"],
  -- salary\s+(?:range|distribution|statistics)
  seqR [liti "salary", wsP, alti ["range", "distribution", "statistics"]],
  -- who\s+earns\s+[\$€£¥]?\d+[,.]?\d*
  seqR [liti "who", wsP, liti "earns", wsP, amtTail],
  -- who\s+makes\s+[\$€£¥]?\d+[,.]?\d*
  seqR [liti "who", wsP, liti "makes", wsP, amtTail],
  -- who\s+gets\s+paid\s+[\$€£¥]?\d+[,.]?\d*
  seqR [liti "who", wsP, liti "gets", wsP, liti "paid", wsP, amtTail],
  -- who\s+receives\s+[\$€£¥]?\d+[,.]?\d*
  seqR [liti "who", wsP, liti "receives", wsP, amtTail],
  -- which\s+employee\s+(?:earns|makes|gets)\s+[\$€£¥]?\d+[,.]?\d*
  seqR [liti "which", wsP, liti "employee", wsP, alti ["earns", "makes", "gets"], wsP,
        amtTail],
  -- employee\s+(?:earning|making)\s+[\$€£¥]?\d+[,.]?\d*
  seqR [liti "employee", wsP, alti ["earning", "making"], wsP, amtTail],
  -- compare\s+(N)\s+salary
  seqR [liti "compare", wsP, pers, wsP, liti "salary"],
  -- is\s+(N)\s+paid\s+fairly
  seqR [liti "is", wsP, pers, wsP, liti "paid", wsP, liti "fairly"],
  -- (N)\s+salary\s+(?:compared|vs)
  seqR [pers, wsP, liti "salary", wsP, alti ["compared", "vs"]],
  -- highest\s+salary\s+in\s+(?:sales|marketing|engineering)
  seqR [liti "highest", wsP, liti "salary", wsP, liti "in", wsP,
        alti ["sales", "marketing", "engineering"]],
  -- which\s+employee\s+has\s+the\s+highest\s+salary
  phr ["which", "employee", "has", "the", "highest", "salary"],
  -- who\s+earns\s+(?:the\s+)?(?:most|least|highest|lowest)\s+in\s+(?:sales|marketing|engineering|hr)
  seqR [liti "who", wsP, liti "earns", wsP, optThe,
        alti ["most", "least", "highest", "lowest"], wsP, liti "in", wsP,
        alti ["sales", "marketing", "engineering", "hr"]],
  -- highest\s+earner\s+in\s+(?:sales|marketing|engineering|hr)
  seqR [liti "highest", wsP, liti "earner", wsP, liti "in", wsP,
        alti ["sales", "marketing", "engineering", "hr"]],
  -- lowest\s+earner\s+in\s+(?:sales|marketing|engineering|hr)
  seqR [liti "lowest", wsP, liti "earner", wsP, liti "in", wsP,
        alti ["sales", "marketing", "engineering", "hr"]]
]

/-- `self.expense_policy_patterns`, lines 231-268, in source order,
`re.IGNORECASE`. -/
def expense_policy_patterns : List Regex := [
  -- how\s+(?:do\s+i|to)\s+submit\s+expense\s+reports?
  seqR [liti "how", wsP, altsR [phr ["do", "i"], liti "to"], wsP, liti "submit", wsP,
        liti "expense", wsP, optS "report"],
  -- expense\s+report\s+(?:process|procedure|submission|policy)
  seqR [liti "expense", wsP, liti "report", wsP,
        alti ["process", "procedure", "submission", "policy"]],
  -- submit\s+(?:an?\s+)?expense\s+reports?
  seqR [liti "submit", wsP, Regex.opt (seqR [liti "a", Regex.opt (chriR 'n'), wsP]),
        liti "expense", wsP, optS "report"],
  -- how\s+to\s+(?:file|submit|complete)\s+expense
  seqR [liti "how", wsP, liti "to", wsP, alti ["file", "submit", "complete"], wsP,
        liti "expense"],
  -- how\s+(?:do\s+i|to)\s+file\s+expense\s+reports?
  seqR [liti "how", wsP, altsR [phr ["do", "i"], liti "to"], wsP, liti "file", wsP,
        liti "expense", wsP, optS "report"],
  -- can\s+i\s+submit\s+(?:an?\s+)?expense\s+without\s+(?:manager\s+)?approval
  seqR [liti "can", wsP, liti "i", wsP, liti "submit", wsP,
        Regex.opt (seqR [liti "a", Regex.opt (chriR 'n'), wsP]), liti "expense", wsP,
        liti "without", wsP, Regex.opt (.cat (liti "manager") wsP), liti "approval"],
  -- (?:do\s+i\s+need|need)\s+(?:manager\s+)?approval\s+for\s+expense
  seqR [altsR [phr ["do", "i", "need"], liti "need"], wsP,
        Regex.opt (.cat (liti "manager") wsP), liti "approval", wsP, liti "for", wsP,
        liti "expense"],
  -- expense\s+approval\s+(?:process|procedure|policy|requirements?)
  seqR [liti "expense", wsP, liti "approval", wsP,
        altsR [liti "process", liti "procedure", liti "policy", optS "requirement"]],
  -- who\s+should\s+approve\s+my\s+expense\s+report
  phr ["who", "should", "approve", "my", "expense", "report"],
  -- who\s+approves?\s+expense\s+reports?
  seqR [liti "who", wsP, optS "approve", wsP, liti "expense", wsP, optS "report"],
  -- (?:are|is)\s+(?:personal\s+)?expenses?\s+reimbursable
  seqR [alti ["are", "is"], wsP, Regex.opt (.cat (liti "personal") wsP),
        optS "expense", wsP, liti "reimbursable"],
  -- what\s+expenses?\s+(?:are\s+)?(?:can\s+be\s+)?reimbursed?
  seqR [liti "what", wsP, optS "expense", wsP, Regex.opt (.cat (liti "are") wsP),
        Regex.opt (phr ["can", "be"] |>.cat wsP), liti "reimburse", Regex.opt (chriR 'd')],
  -- (?:which|what\s+kind\s+of|what\s+types?\s+of)\s+expenses?\s+(?:can\s+i\s+)?(?:claim|get\s+reimbursed)
  seqR [altsR [liti "which", phr ["what", "kind", "of"],
               seqR [liti "what", wsP, optS "type", wsP, liti "of"]], wsP,
        optS "expense", wsP, Regex.opt (seqR [liti "can", wsP, liti "i", wsP]),
        altsR [liti "claim", phr ["get", "reimbursed"]]],
  -- reimbursable\s+expenses?
  seqR [liti "reimbursable", wsP, optS "expense"],
  -- expense\s+reimbursement\s+(?:process|procedure|policy|eligibility)
  seqR [liti "expense", wsP, liti "reimbursement", wsP,
        alti ["process", "procedure", "policy", "eligibility"]],
  -- what\s+(?:are\s+the\s+)?acceptable\s+expense\s+categories
  seqR [liti "what", wsP, Regex.opt (seqR [liti "are", wsP, liti "the", wsP]),
        liti "acceptable", wsP, liti "expense", wsP, liti "categories"],
  -- acceptable\s+expense\s+categories\s+for\s+reimbursement
  phr ["acceptable", "expense", "categories", "for", "reimbursement"],
  -- (?:what\x27?s\s+the\s+)?deadline\s+to\s+submit\s+(?:my\s+)?expenses?
  seqR [Regex.opt (seqR [liti "what", Regex.opt (chrR apos), chriR 's', wsP,
                         liti "the", wsP]),
        liti "deadline", wsP, liti "to", wsP, liti "submit", wsP,
        Regex.opt (.cat (liti "my") wsP), optS "expense"],
  -- are\s+alcohol\s+expenses?\s+reimbursed?
  seqR [liti "are", wsP, liti "alcohol", wsP, optS "expense", wsP, liti "reimburse",
        Regex.opt (chriR 'd')],
  -- what\s+qualifies\s+as\s+(?:a\s+)?reimbursable\s+business\s+expense
  seqR [liti "what", wsP, liti "qualifies", wsP, liti "as", wsP,
        Regex.opt (.cat (liti "a") wsP), liti "reimbursable", wsP, liti "business",
        wsP, liti "expense"],
  -- can\s+i\s+get\s+reimbursed\s+for\s+remote\s+work\s+equipment
  phr ["can", "i", "get", "reimbursed", "for", "remote", "work", "equipment"],
  -- (?:business\s+travel|travel)\s+expense\s+(?:policy|procedure|reimbursement)
  seqR [altsR [phr ["business", "travel"], liti "travel"], wsP, liti "expense", wsP,
        alti ["policy", "procedure", "reimbursement"]],
  -- what\s+(?:kind\s+of\s+)?expenses?\s+(?:can\s+i\s+)?(?:claim|submit)\s+for\s+(?:business\s+)?travel
  seqR [liti "what", wsP, Regex.opt (seqR [liti "kind", wsP, liti "of", wsP]),
        optS "expense", wsP, Regex.opt (seqR [liti "can", wsP, liti "i", wsP]),
        alti ["claim", "submit"], wsP, liti "for", wsP,
        Regex.opt (.cat (liti "business") wsP), liti "travel"],
  -- travel\s+(?:related\s+)?expense\s+(?:policy|guidelines)
  seqR [liti "travel", wsP, Regex.opt (.cat (liti "related") wsP), liti "expense",
        wsP, alti ["policy", "guidelines"]],
  -- (?:what\x27?s\s+the\s+)?deadline\s+for\s+(?:submitting|filing)\s+(?:business\s+)?expenses?
  seqR [Regex.opt (seqR [liti "what", Regex.opt (chrR apos), chriR 's', wsP,
                         liti "the", wsP]),
        liti "deadline", wsP, liti "for", wsP, alti ["submitting", "filing"], wsP,
        Regex.opt (.cat (liti "business") wsP), optS "expense"],
  -- what\s+is\s+the\s+(?:submission\s+)?deadline\s+for\s+(?:business\s+)?expenses?
  seqR [liti "what", wsP, liti "is", wsP, liti "the", wsP,
        Regex.opt (.cat (liti "submission") wsP), liti "deadline", wsP, liti "for",
        wsP, Regex.opt (.cat (liti "business") wsP), optS "expense"],
  -- when\s+(?:do\s+i\s+need\s+to|should\s+i)\s+submit\s+expense\s+reports?
  seqR [liti "when", wsP, altsR [phr ["do", "i", "need", "to"], phr ["should", "i"]],
        wsP, liti "submit", wsP, liti "expense", wsP, optS "report"],
  -- expense\s+(?:submission\s+)?deadline
  seqR [liti "expense", wsP, Regex.opt (.cat (liti "submission") wsP), liti "deadline"],
  -- how\s+long\s+(?:do\s+i\s+have\s+)?to\s+submit\s+expenses?
  seqR [liti "how", wsP, liti "long", wsP,
        Regex.opt (seqR [liti "do", wsP, liti "i", wsP, liti "have", wsP]), liti "to",
        wsP, liti "submit", wsP, optS "expense"],
  -- how\s+(?:do\s+i|to)\s+track\s+(?:my\s+)?(?:submitted\s+)?expense\s+reports?
  seqR [liti "how", wsP, altsR [phr ["do", "i"], liti "to"], wsP, liti "track", wsP,
        Regex.opt (.cat (liti "my") wsP), Regex.opt (.cat (liti "submitted") wsP),
        liti "expense", wsP, optS "report"],
  -- track\s+(?:my\s+)?(?:submitted\s+)?expense\s+reports?
  seqR [liti "track", wsP, Regex.opt (.cat (liti "my") wsP),
        Regex.opt (.cat (liti "submitted") wsP), liti "expense", wsP, optS "report"],
  -- status\s+of\s+(?:my\s+)?expense\s+reports?
  seqR [liti "status", wsP, liti "of", wsP, Regex.opt (.cat (liti "my") wsP),
        liti "expense", wsP, optS "report"],
  -- check\s+(?:my\s+)?expense\s+report\s+status
  seqR [liti "check", wsP, Regex.opt (.cat (liti "my") wsP), liti "expense", wsP,
        liti "report", wsP, liti "status"],
  -- expense\s+(?:form|forms|submission|guidelines|policy)
  seqR [liti "expense", wsP,
        alti ["form", "forms", "submission", "guidelines", "policy"]],
  -- reimbursement\s+(?:process|procedure|policy)
  seqR [liti "reimbursement", wsP, alti ["process", "procedure", "policy"]],
  -- business\s+expense\s+(?:policy|procedure|guidelines)
  seqR [liti "business", wsP, liti "expense", wsP,
        alti ["policy", "procedure", "guidelines"]]
]

/-- `self.financial_keywords`, lines 210-218 (substring keywords). -/
def financial_keywords : List Str :=
  ["salary", "compensation", "pay", "earn", "income", "make", "makes",
   "revenue", "profit", "budget", "expense", "cost",
   "dollar", "euro", "pound", "money", "cash",
   "financial", "finance", "fiscal", "annually", "yearly",
   "bracket", "range", "100k", "$100k", "figure",
   "take home", "monthly", "weekly", "daily", "paid",
   "paycheck", "wage", "wages", "earnings", "remuneration"].map String.data

/-- The local `safe_policy_contexts` list of `analyze_query`, line 299. -/
def safe_policy_contexts : List Str :=
  ["policy", "policies", "guidelines", "rules", "procedures"].map String.data

/-- The keyword block list of the safe-context check, line 301. -/
def safe_block_keywords : List Str :=
  ["salary", "pay", "wage", "compensation", "revenue", "profit"].map String.data

/-- The salary-related keyword list of line 416. -/
def salary_keywords6 : List Str :=
  ["salary", "compensation", "pay", "earn", "income", "money"].map String.data

/-- The salary keyword list of the classifier branches, lines 354 and 391. -/
def salary_keywords8 : List Str :=
  ["salary", "compensation", "pay", "earn", "income", "money", "wage",
   "wages"].map String.data

/-- The `self_identity_patterns` of `analyze_query`, lines 426-430.
These are searched case-sensitively against the lowercased query. -/
def self_identity_patterns : List Regex := [
  seqR [.wb, lits "who", wsP, lits "am", wsP, lits "i", .wb],
  seqR [.wb, lits "who", wsP, lits "i", wsP, lits "am", .wb],
  seqR [.wb, lits "tell", wsP, lits "me", wsP, lits "about", wsP, lits "myself", .wb],
  seqR [.wb, lits "my", wsP, lits "information", .wb],
  seqR [.wb, lits "my", wsP, lits "details", .wb],
  seqR [.wb, lits "about", wsP, lits "me", .wb],
  seqR [.wb, lits "what", Regex.opt (chrR 's'), wsP, lits "my", wsP, lits "name", .wb],
  seqR [.wb, lits "what", wsP, lits "is", wsP, lits "my", wsP, lits "name", .wb],
  seqR [.wb, lits "my", wsP, lits "name", .wb]
]

/-- The `person_query_patterns` of `determine_action`, lines 504-510.
Searched case-sensitively against the lowercased query. -/
def person_query_patterns : List Regex := [
  -- \bwho\s+is\s+[a-z]+\s+[a-z]+\b
  seqR [.wb, lits "who", wsP, lits "is", wsP, lcLetter.plus, wsP, lcLetter.plus, .wb],
  -- \btell\s+me\s+about\s+[a-z]+\s+[a-z]+\b
  seqR [.wb, lits "tell", wsP, lits "me", wsP, lits "about", wsP, lcLetter.plus, wsP,
        lcLetter.plus, .wb],
  -- \bwhat\s+do\s+you\s+know\s+about\s+[a-z]+\s+[a-z]+\b
  seqR [.wb, lits "what", wsP, lits "do", wsP, lits "you", wsP, lits "know", wsP,
        lits "about", wsP, lcLetter.plus, wsP, lcLetter.plus, .wb],
  -- \binfo\s+on\s+[a-z]+\s+[a-z]+\b
  seqR [.wb, lits "info", wsP, lits "on", wsP, lcLetter.plus, wsP, lcLetter.plus, .wb],
  -- \bdetails\s+about\s+[a-z]+\s+[a-z]+\b
  seqR [.wb, lits "details", wsP, lits "about", wsP, lcLetter.plus, wsP,
        lcLetter.plus, .wb]
]

/-- The case-sensitive `name_pattern` of the fallback name scan,
line 452: `\b([A-Z][a-z]+)\s+([A-Z][a-z]+)\b`.  Only group 1 is read by
the source, so only the first group is transcribed as a capture. -/
def name_pattern : Regex :=
  seqR [.wb, .grp (.cat ucLetter lcLetter.plus), wsP, .cat ucLetter lcLetter.plus, .wb]

/-- The `QueryIntent` enum of `llm_modules/llm_intent_classifier.py`
lines 14-19 (identical in `llm_unified_analyzer.py`). -/
inductive QueryIntent where
  | policy_procedure
  | financial_data
  | personal_data
  | general_info
deriving DecidableEq, Repr

/-- The `IntentClassification` record produced by either classifier
variant (the unified-analyzer branch of `analyze_query` builds exactly
this record from the unified result, lines 328-335).  The float
confidence of the source is modelled as a rational. -/
structure IntentClassification where
  intent : QueryIntent
  confidence : ℚ
  reasoning : Str
  keywords : List Str
  is_policy_related : Bool
  is_financial_sensitive : Bool
deriving DecidableEq, Repr

/-- The analysis dictionary built by `analyze_query`, lines 275-288. -/
structure QueryAnalysis where
  original_query : Str
  is_financial : Bool
  is_salary_related : Bool
  is_self_data_request : Bool
  is_about_person : Bool
  is_person_salary_query : Bool
  is_aggregate_salary_query : Bool
  target_person : Option Str
  is_policy_context : Bool
  user_email : Str
  user_role : Str
  llm_classification : Option IntentClassification
deriving DecidableEq, Repr

/-- The fresh analysis of lines 275-288: every flag false, no target,
no classification. -/
def baseAnalysis (query email role : Str) : QueryAnalysis where
  original_query := query
  is_financial := false
  is_salary_related := false
  is_self_data_request := false
  is_about_person := false
  is_person_salary_query := false
  is_aggregate_salary_query := false
  target_person := none
  is_policy_context := false
  user_email := email
  user_role := role
  llm_classification := none

/-- `_extract_person_details`, lines 470-482: first person pattern with
a match sets `is_about_person` and, since every person pattern carries a
capture group (so `match.groups()` is always non-empty), the stripped
group 1 becomes `target_person`; the group-less fallback branch of the
source is statically dead and leaves the target unchanged here. -/
def extractPersonDetails (query : Str) (a : QueryAnalysis) : QueryAnalysis :=
  match firstMatch person_reference_patterns query with
  | some st =>
      { a with is_about_person := true,
               target_person := match st.cap with
                 | some c => some (stripStr c)
                 | none => a.target_person }
  | none => a

/-- `_check_self_reference`, lines 484-489. -/
def checkSelfReference (query : Str) (a : QueryAnalysis) : QueryAnalysis :=
  if searchAnyB self_reference_patterns query then
    { a with is_self_data_request := true }
  else a

/-- The intent-to-flags mapping of the classifier branches,
lines 337-345 and 374-382, including storing the classification. -/
def applyIntent (res : IntentClassification) (a : QueryAnalysis) : QueryAnalysis :=
  let a := { a with llm_classification := some res }
  match res.intent with
  | .policy_procedure => { a with is_policy_context := true, is_financial := false }
  | .financial_data => { a with is_financial := true }
  | .personal_data =>
      { a with is_financial := true, is_salary_related := true, is_about_person := true }
  | .general_info => a

/-- The high-confidence salary-flag fix of the classifier branches,
lines 351-361 and 388-398 (`target_person` is never the empty string,
so Python truthiness of the target is `Option.isSome`). -/
def criticalFix (res : IntentClassification) (ql : Str) (a : QueryAnalysis) :
    QueryAnalysis :=
  if res.intent = .personal_data && res.is_financial_sensitive then
    if hasAnyKw salary_keywords8 ql then
      let a := { a with is_salary_related := true, is_financial := true }
      if a.is_about_person && a.target_person.isSome then
        { a with is_person_salary_query := true }
      else a
    else a
  else a

/-- The analysis returned from a high-confidence classifier branch,
lines 347-363 and 384-400: extract person details, check self
reference, apply the salary-flag fix, return. -/
def classifierReturn (query ql : Str) (res : IntentClassification)
    (a : QueryAnalysis) : QueryAnalysis :=
  criticalFix res ql (checkSelfReference query (extractPersonDetails query a))

/-- Lines 405-417 of the regex-based analysis: financial keywords set
`is_financial`; any financial pattern sets both `is_financial` and
`is_salary_related`; the salary keyword list sets `is_salary_related`. -/
def rxFinancialFlags (query ql : Str) (hkw : Bool) (a : QueryAnalysis) : QueryAnalysis :=
  let a := if hkw then { a with is_financial := true } else a
  let a := if searchAnyB financial_patterns query then
             { a with is_financial := true, is_salary_related := true }
           else a
  if hasAnyKw salary_keywords6 ql then { a with is_salary_related := true } else a

/-- Lines 419-435: self-reference patterns (on the raw query) and the
additional identity patterns (on the lowercased query). -/
def rxSelfFlags (query ql : Str) (a : QueryAnalysis) : QueryAnalysis :=
  let a := if searchAnyB self_reference_patterns query then
             { a with is_self_data_request := true }
           else a
  if searchAnyB self_identity_patterns ql then
    { a with is_self_data_request := true }
  else a

/-- Lines 437-448: person patterns (first match wins, stripped group 1
becomes the target) and the person-salary conjunction. -/
def rxPersonFlags (query : Str) (a : QueryAnalysis) : QueryAnalysis :=
  let a := extractPersonDetails query a
  if a.is_about_person && a.is_salary_related then
    { a with is_person_salary_query := true }
  else a

/-- Lines 450-458: when no target was extracted (`None` or the empty
string, both falsy in Python) and the query is salary related, the
first capitalized-bigram match supplies the target. -/
def rxNameFallback (query : Str) (a : QueryAnalysis) : QueryAnalysis :=
  if (match a.target_person with | none => true | some t => t.isEmpty) then
    match name_pattern.searchSt query with
    | some st =>
        if a.is_salary_related then
          { a with target_person := st.cap, is_about_person := true }
        else a
    | none => a
  else a

/-- Lines 460-466: the final financial-flag fixup. -/
def rxFinancialFixup (query : Str) (a : QueryAnalysis) : QueryAnalysis :=
  if !a.is_financial then
    let a := if searchAnyB financial_patterns query then
               { a with is_financial := true }
             else a
    if a.is_salary_related && (a.is_self_data_request || a.is_about_person) &&
        !a.is_policy_context then
      { a with is_financial := true }
    else a
  else a

/-- The full regex-based analysis, lines 405-468. -/
def regexAnalysis (query ql : Str) (hkw : Bool) (a : QueryAnalysis) : QueryAnalysis :=
  rxFinancialFixup query
    (rxNameFallback query
      (rxPersonFlags query
        (rxSelfFlags query ql
          (rxFinancialFlags query ql hkw a))))

/-- The confidence threshold literal 0.8 of lines 347 and 384, in a
kernel-computable normal form. -/
def confThreshold : ℚ := mkRat 8 10

theorem confThreshold_eq : confThreshold = (0.8 : ℚ) := by
  norm_num [confThreshold, mkRat]

/-- Whether the generic safe-policy check of lines 298-305 fires: a safe
policy keyword is present and none of the blocked financial keywords. -/
def safeContextHit (ql : Str) : Bool :=
  hasAnyKw safe_policy_contexts ql && !hasAnyKw safe_block_keywords ql

/-- `FinancialContentFilter.analyze_query`, lines 271-468.  The `llm`
argument is the classifier result: `none` models an unavailable
classifier or a raised exception (either branch), `some res` a
successful classification from the unified analyzer or the fallback
classifier (both branches apply identical updates). -/
def analyzeQuery (query email role : Str) (llm : Option IntentClassification) :
    QueryAnalysis :=
  let ql := lowerStr query
  let a0 := baseAnalysis query email role
  if searchAnyB expense_policy_patterns query then
    { a0 with is_policy_context := true, is_financial := false,
              is_salary_related := false }
  else if safeContextHit ql then
    { a0 with is_policy_context := true, is_financial := false,
              is_salary_related := false }
  else if searchAnyB aggregate_salary_patterns query then
    { a0 with is_aggregate_salary_query := true, is_salary_related := true,
              is_financial := true }
  else
    let hkw := hasAnyKw financial_keywords ql
    let hp5 := searchAnyB (financial_patterns.take 5) query
    if !hkw && !hp5 then
      let a := extractPersonDetails query a0
      { a with is_financial := false, is_salary_related := false }
    else
      match llm with
      | some res =>
          let a1 := applyIntent res a0
          if res.confidence > confThreshold then classifierReturn query ql res a1
          else regexAnalysis query ql hkw a1
      | none => regexAnalysis query ql hkw a0

/-- The `FilterAction` enum, lines 34-40. -/
inductive FilterAction where
  | ALLOW
  | ALLOW_WITH_REDACTION
  | ALLOW_WITH_EMAIL_CHECK
  | ALLOW_WITH_SCREENING
  | DENY
deriving DecidableEq, Repr

/-- The `.value` strings of the enum. -/
def FilterAction.value : FilterAction → Str
  | .ALLOW => "allow".data
  | .ALLOW_WITH_REDACTION => "allow_with_redaction".data
  | .ALLOW_WITH_EMAIL_CHECK => "allow_with_email_check".data
  | .ALLOW_WITH_SCREENING => "allow_with_screening".data
  | .DENY => "deny".data

/-- The result dictionary of `determine_action`. -/
structure RuleResult where
  action : FilterAction
  reason : Str
deriving DecidableEq, Repr

/-- `FinancialContentFilter.determine_action`, lines 491-595. -/
def determineAction (a : QueryAnalysis) : RuleResult :=
  if a.is_policy_context then
    ⟨.ALLOW, "Policy-related query - no financial data filtering needed".data⟩
  else if !a.is_financial then
    if searchAnyB person_query_patterns (lowerStr a.original_query) then
      ⟨.ALLOW_WITH_SCREENING,
       "Person information query - will be screened for salary content".data⟩
    else
      ⟨.ALLOW_WITH_SCREENING,
       "General query - will be screened for sensitive content".data⟩
  else if a.is_aggregate_salary_query then
    ⟨.DENY, "Aggregate salary queries are not permitted for any user role".data⟩
  else if a.is_self_data_request then
    ⟨.ALLOW_WITH_EMAIL_CHECK,
     "Self-data request - will verify user identity in documents".data⟩
  else if a.is_person_salary_query then
    let rl := lowerStr a.user_role
    let tp := a.target_person.getD "Unknown".data
    if rl = "admin".data || rl = "manager".data then
      ⟨.ALLOW_WITH_REDACTION,
       "Admin/Manager access to ".data ++ tp ++ [apos] ++
         "s information with salary redaction".data⟩
    else
      ⟨.DENY, "Insufficient privileges to access ".data ++ tp ++ [apos] ++
        "s salary information".data⟩
  else
    let rl := lowerStr a.user_role
    if rl = "junior".data || rl = "senior".data then
      if a.is_person_salary_query || a.is_aggregate_salary_query then
        ⟨.DENY, "Access to salary information is restricted".data⟩
      else
        ⟨.ALLOW_WITH_SCREENING,
         a.user_role ++ " role - general content screening applied".data⟩
    else if a.is_financial then
      if rl = "admin".data || rl = "manager".data then
        if a.is_salary_related && a.is_about_person then
          ⟨.ALLOW_WITH_REDACTION,
           a.user_role ++ " access to individual information with salary redaction".data⟩
        else
          ⟨.ALLOW, a.user_role ++ " accessing company financial data".data⟩
      else
        ⟨.DENY,
         "Insufficient privileges to access detailed financial information".data⟩
    else
      ⟨.ALLOW_WITH_SCREENING,
       "General query - will be screened for sensitive content".data⟩

/-- The audit entry of `log_sensitive_query`, lines 677-688. -/
structure AuditEntry where
  timestamp : Str
  user_email : Str
  user_role : Str
  query : Str
  is_financial : Bool
  is_salary_related : Bool
  target_person : Option Str
  action_taken : Str
  reason : Str
  response_filtered : Bool
deriving DecidableEq, Repr

/-- `log_sensitive_query`, lines 670-690: `none` models the empty
dictionary returned when auditing is disabled; `datetime.now()` is the
explicit `now` argument. -/
def logSensitiveQuery (audit_log_enabled : Bool) (now : Str) (a : QueryAnalysis)
    (r : RuleResult) (response_was_filtered : Bool) : Option AuditEntry :=
  if !audit_log_enabled then none
  else some
    { timestamp := now
      user_email := a.user_email
      user_role := a.user_role
      query := a.original_query
      is_financial := a.is_financial
      is_salary_related := a.is_salary_related
      target_person := a.target_person
      action_taken := r.action.value
      reason := r.reason
      response_filtered := response_was_filtered }

/-- The result dictionary of `process_query`, lines 703-709. -/
structure ProcessResult where
  query_analysis : QueryAnalysis
  rule_result : RuleResult
  audit_entry : Option AuditEntry
  should_filter_context : Bool
  should_verify_email : Bool
deriving DecidableEq, Repr

/-- `FinancialContentFilter.process_query`, lines 692-709.  The
`document_context` parameter of the source is unused by the body and
kept for interface fidelity. -/
def processQuery (audit_log_enabled : Bool) (now query email role : Str)
    (llm : Option IntentClassification) (_document_context : Option Str) :
    ProcessResult :=
  let qa := analyzeQuery query email role llm
  let rr := determineAction qa
  let ae := logSensitiveQuery audit_log_enabled now qa rr false
  { query_analysis := qa
    rule_result := rr
    audit_entry := ae
    should_filter_context :=
      rr.action = .DENY || rr.action = .ALLOW_WITH_REDACTION ||
        rr.action = .ALLOW_WITH_SCREENING
    should_verify_email := rr.action = .ALLOW_WITH_EMAIL_CHECK }

/-- The username of an email address: the part before the first
at-sign, lowercased — `user_email.split(\x27@\x27)[0].lower()` of
line 721. -/
def emailUsername (user_email : Str) : Str :=
  lowerStr (user_email.takeWhile (fun c => c ≠ '@'))

/-- `verify_email_in_context`, lines 711-725. -/
def verifyEmailInContext (user_email document_context : Str) : Bool :=
  if user_email.isEmpty || document_context.isEmpty then false
  else if isSubstr (lowerStr user_email) (lowerStr document_context) then true
  else
    let username := emailUsername user_email
    if username.length > 2 && isSubstr username (lowerStr document_context) then true
    else false

/-- The literal marker of `_filter_salary_from_person_response`. -/
def redactionMarker : Str := "[SALARY INFORMATION REDACTED]".data

/-- `_filter_salary_from_person_response`, lines 738-749: every
financial pattern is applied in order; a pattern that matches the
current text substitutes all of its occurrences and flags the result. -/
def filterSalaryFromPersonResponse (response : Str) : Str × Bool :=
  financial_patterns.foldl
    (fun acc p => if p.searchB acc.1 then (p.subAll redactionMarker acc.1, true) else acc)
    (response, false)

/-! ### Preservation lemmas about the analysis steps -/

theorem extractPersonDetails_policy (q : Str) (a : QueryAnalysis) :
    (extractPersonDetails q a).is_policy_context = a.is_policy_context := by
  unfold extractPersonDetails; cases firstMatch person_reference_patterns q <;> rfl

theorem extractPersonDetails_financial (q : Str) (a : QueryAnalysis) :
    (extractPersonDetails q a).is_financial = a.is_financial := by
  unfold extractPersonDetails; cases firstMatch person_reference_patterns q <;> rfl

theorem extractPersonDetails_aggregate (q : Str) (a : QueryAnalysis) :
    (extractPersonDetails q a).is_aggregate_salary_query = a.is_aggregate_salary_query := by
  unfold extractPersonDetails; cases firstMatch person_reference_patterns q <;> rfl

theorem extractPersonDetails_self (q : Str) (a : QueryAnalysis) :
    (extractPersonDetails q a).is_self_data_request = a.is_self_data_request := by
  unfold extractPersonDetails; cases firstMatch person_reference_patterns q <;> rfl

theorem checkSelfReference_policy (q : Str) (a : QueryAnalysis) :
    (checkSelfReference q a).is_policy_context = a.is_policy_context := by
  unfold checkSelfReference; split <;> rfl

theorem checkSelfReference_financial (q : Str) (a : QueryAnalysis) :
    (checkSelfReference q a).is_financial = a.is_financial := by
  unfold checkSelfReference; split <;> rfl

theorem checkSelfReference_aggregate (q : Str) (a : QueryAnalysis) :
    (checkSelfReference q a).is_aggregate_salary_query = a.is_aggregate_salary_query := by
  unfold checkSelfReference; split <;> rfl

theorem criticalFix_policy (res : IntentClassification) (ql : Str) (a : QueryAnalysis) :
    (criticalFix res ql a).is_policy_context = a.is_policy_context := by
  unfold criticalFix; dsimp only; split_ifs <;> rfl

theorem criticalFix_aggregate (res : IntentClassification) (ql : Str)
    (a : QueryAnalysis) :
    (criticalFix res ql a).is_aggregate_salary_query = a.is_aggregate_salary_query := by
  unfold criticalFix; dsimp only; split_ifs <;> rfl

theorem criticalFix_of_not_personal (res : IntentClassification) (ql : Str)
    (a : QueryAnalysis) (h : res.intent ≠ .personal_data) :
    criticalFix res ql a = a := by
  unfold criticalFix
  have : (res.intent = QueryIntent.personal_data && res.is_financial_sensitive) = false := by
    cases hi : res.intent <;> simp_all
  simp [this]

theorem applyIntent_aggregate (res : IntentClassification) (a : QueryAnalysis) :
    (applyIntent res a).is_aggregate_salary_query = a.is_aggregate_salary_query := by
  unfold applyIntent; cases res.intent <;> rfl

theorem applyIntent_self (res : IntentClassification) (a : QueryAnalysis) :
    (applyIntent res a).is_self_data_request = a.is_self_data_request := by
  unfold applyIntent; cases res.intent <;> rfl

theorem rxFinancialFlags_policy (q ql : Str) (hkw : Bool) (a : QueryAnalysis) :
    (rxFinancialFlags q ql hkw a).is_policy_context = a.is_policy_context := by
  unfold rxFinancialFlags; split <;> split <;> split <;> rfl

theorem rxFinancialFlags_aggregate (q ql : Str) (hkw : Bool) (a : QueryAnalysis) :
    (rxFinancialFlags q ql hkw a).is_aggregate_salary_query =
      a.is_aggregate_salary_query := by
  unfold rxFinancialFlags; split <;> split <;> split <;> rfl

theorem rxFinancialFlags_self (q ql : Str) (hkw : Bool) (a : QueryAnalysis) :
    (rxFinancialFlags q ql hkw a).is_self_data_request = a.is_self_data_request := by
  unfold rxFinancialFlags; split <;> split <;> split <;> rfl

theorem rxFinancialFlags_financial (q ql : Str) (hkw : Bool) (a : QueryAnalysis) :
    (rxFinancialFlags q ql hkw a).is_financial =
      (a.is_financial || hkw || searchAnyB financial_patterns q) := by
  unfold rxFinancialFlags
  dsimp only
  cases hkw <;> cases h : searchAnyB financial_patterns q <;>
    cases hf : a.is_financial <;> split_ifs <;> simp_all

theorem rxSelfFlags_policy (q ql : Str) (a : QueryAnalysis) :
    (rxSelfFlags q ql a).is_policy_context = a.is_policy_context := by
  unfold rxSelfFlags; split <;> split <;> rfl

theorem rxSelfFlags_aggregate (q ql : Str) (a : QueryAnalysis) :
    (rxSelfFlags q ql a).is_aggregate_salary_query = a.is_aggregate_salary_query := by
  unfold rxSelfFlags; split <;> split <;> rfl

theorem rxSelfFlags_financial (q ql : Str) (a : QueryAnalysis) :
    (rxSelfFlags q ql a).is_financial = a.is_financial := by
  unfold rxSelfFlags; split <;> split <;> rfl

theorem rxSelfFlags_self_of_match (q ql : Str) (a : QueryAnalysis)
    (h : searchAnyB self_reference_patterns q = true) :
    (rxSelfFlags q ql a).is_self_data_request = true := by
  unfold rxSelfFlags; dsimp only; rw [h]; split_ifs <;> simp_all

theorem rxPersonFlags_policy (q : Str) (a : QueryAnalysis) :
    (rxPersonFlags q a).is_policy_context = a.is_policy_context := by
  unfold rxPersonFlags; dsimp only; split_ifs
  all_goals simp [extractPersonDetails_policy]

theorem rxPersonFlags_aggregate (q : Str) (a : QueryAnalysis) :
    (rxPersonFlags q a).is_aggregate_salary_query = a.is_aggregate_salary_query := by
  unfold rxPersonFlags; dsimp only; split_ifs
  all_goals simp [extractPersonDetails_aggregate]

theorem rxPersonFlags_financial (q : Str) (a : QueryAnalysis) :
    (rxPersonFlags q a).is_financial = a.is_financial := by
  unfold rxPersonFlags; dsimp only; split_ifs
  all_goals simp [extractPersonDetails_financial]

theorem rxPersonFlags_self (q : Str) (a : QueryAnalysis) :
    (rxPersonFlags q a).is_self_data_request = a.is_self_data_request := by
  unfold rxPersonFlags; dsimp only; split_ifs
  all_goals simp [extractPersonDetails_self]

theorem rxNameFallback_policy (q : Str) (a : QueryAnalysis) :
    (rxNameFallback q a).is_policy_context = a.is_policy_context := by
  unfold rxNameFallback
  split
  · cases name_pattern.searchSt q
    · rfl
    · dsimp only; split <;> rfl
  · rfl

theorem rxNameFallback_aggregate (q : Str) (a : QueryAnalysis) :
    (rxNameFallback q a).is_aggregate_salary_query = a.is_aggregate_salary_query := by
  unfold rxNameFallback
  split
  · cases name_pattern.searchSt q
    · rfl
    · dsimp only; split <;> rfl
  · rfl

theorem rxNameFallback_financial (q : Str) (a : QueryAnalysis) :
    (rxNameFallback q a).is_financial = a.is_financial := by
  unfold rxNameFallback
  split
  · cases name_pattern.searchSt q
    · rfl
    · dsimp only; split <;> rfl
  · rfl

theorem rxNameFallback_self (q : Str) (a : QueryAnalysis) :
    (rxNameFallback q a).is_self_data_request = a.is_self_data_request := by
  unfold rxNameFallback
  split
  · cases name_pattern.searchSt q
    · rfl
    · dsimp only; split <;> rfl
  · rfl

theorem rxFinancialFixup_policy (q : Str) (a : QueryAnalysis) :
    (rxFinancialFixup q a).is_policy_context = a.is_policy_context := by
  unfold rxFinancialFixup; dsimp only; split_ifs <;> rfl

theorem rxFinancialFixup_aggregate (q : Str) (a : QueryAnalysis) :
    (rxFinancialFixup q a).is_aggregate_salary_query = a.is_aggregate_salary_query := by
  unfold rxFinancialFixup; dsimp only; split_ifs <;> rfl

theorem rxFinancialFixup_self (q : Str) (a : QueryAnalysis) :
    (rxFinancialFixup q a).is_self_data_request = a.is_self_data_request := by
  unfold rxFinancialFixup; dsimp only; split_ifs <;> rfl

theorem rxFinancialFixup_of_financial (q : Str) (a : QueryAnalysis)
    (h : a.is_financial = true) : rxFinancialFixup q a = a := by
  unfold rxFinancialFixup; simp [h]

theorem regexAnalysis_policy (q ql : Str) (hkw : Bool) (a : QueryAnalysis) :
    (regexAnalysis q ql hkw a).is_policy_context = a.is_policy_context := by
  unfold regexAnalysis
  rw [rxFinancialFixup_policy, rxNameFallback_policy, rxPersonFlags_policy,
    rxSelfFlags_policy, rxFinancialFlags_policy]

theorem regexAnalysis_aggregate (q ql : Str) (hkw : Bool) (a : QueryAnalysis) :
    (regexAnalysis q ql hkw a).is_aggregate_salary_query =
      a.is_aggregate_salary_query := by
  unfold regexAnalysis
  rw [rxFinancialFixup_aggregate, rxNameFallback_aggregate, rxPersonFlags_aggregate,
    rxSelfFlags_aggregate, rxFinancialFlags_aggregate]

/-- A match among the first five financial patterns is a match among all
of them. -/
theorem searchAnyB_take_of (n : Nat) (l : List Regex) (s : Str)
    (h : searchAnyB (l.take n) s = true) : searchAnyB l s = true := by
  unfold searchAnyB at *
  rcases List.any_eq_true.mp h with ⟨p, hp, hs⟩
  exact List.any_eq_true.mpr ⟨p, (l.take_sublist n).mem hp, hs⟩

/-- In the regex path starting from hypotheses that guarantee a
financial signal, the final analysis is financial. -/
theorem regexAnalysis_financial_of (q ql : Str) (hkw : Bool) (a : QueryAnalysis)
    (h : (hkw || searchAnyB (financial_patterns.take 5) q) = true) :
    (regexAnalysis q ql hkw a).is_financial = true := by
  unfold regexAnalysis
  have hfin : (rxFinancialFlags q ql hkw a).is_financial = true := by
    rw [rxFinancialFlags_financial]
    rcases Bool.or_eq_true_iff.mp h with h5 | h5
    · simp [h5]
    · simp [searchAnyB_take_of 5 financial_patterns q h5]
  have h2 : (rxPersonFlags q (rxSelfFlags q ql (rxFinancialFlags q ql hkw a))).is_financial = true := by
    rw [rxPersonFlags_financial, rxSelfFlags_financial]; exact hfin
  have h3 : (rxNameFallback q (rxPersonFlags q (rxSelfFlags q ql (rxFinancialFlags q ql hkw a)))).is_financial = true := by
    rw [rxNameFallback_financial]; exact h2
  rw [rxFinancialFixup_of_financial _ _ h3]; exact h3

/-- In the regex path, a self-reference pattern match makes the final
analysis a self-data request. -/
theorem regexAnalysis_self_of (q ql : Str) (hkw : Bool) (a : QueryAnalysis)
    (h : searchAnyB self_reference_patterns q = true)
    (hfin : (hkw || searchAnyB (financial_patterns.take 5) q) = true) :
    (regexAnalysis q ql hkw a).is_self_data_request = true := by
  unfold regexAnalysis
  have h2 : (rxPersonFlags q (rxSelfFlags q ql (rxFinancialFlags q ql hkw a))).is_self_data_request = true := by
    rw [rxPersonFlags_self]; exact rxSelfFlags_self_of_match _ _ _ h
  have h3 : (rxNameFallback q (rxPersonFlags q (rxSelfFlags q ql (rxFinancialFlags q ql hkw a)))).is_self_data_request = true := by
    rw [rxNameFallback_self]; exact h2
  have hf3 : (rxNameFallback q (rxPersonFlags q (rxSelfFlags q ql (rxFinancialFlags q ql hkw a)))).is_financial = true := by
    rw [rxNameFallback_financial, rxPersonFlags_financial, rxSelfFlags_financial,
      rxFinancialFlags_financial]
    rcases Bool.or_eq_true_iff.mp hfin with h5 | h5
    · simp [h5]
    · simp [searchAnyB_take_of 5 financial_patterns q h5]
  rw [rxFinancialFixup_of_financial _ _ hf3]; exact h3

/-! ### Claim C3 -/

/-- Claim C3: every query matching at least one expense-policy pattern is
analyzed as policy context and non-financial, and the decision on that
analysis is ALLOW, for every email, role and classifier result — in
particular however often the query mentions expenses or reimbursement. -/
theorem claim3_expense_policy_precedence (q e r : Str)
    (llm : Option IntentClassification)
    (h : searchAnyB expense_policy_patterns q = true) :
    (analyzeQuery q e r llm).is_policy_context = true ∧
    (analyzeQuery q e r llm).is_financial = false ∧
    (determineAction (analyzeQuery q e r llm)).action = .ALLOW := by
  have ha : analyzeQuery q e r llm =
      { baseAnalysis q e r with is_policy_context := true, is_financial := false,
                                is_salary_related := false } := by
    unfold analyzeQuery; simp [h]
  refine ⟨by rw [ha], by rw [ha], ?_⟩
  rw [ha]; rfl

/-- Witness for C3 at the query of the specification. -/
theorem claim3_witness :
    searchAnyB expense_policy_patterns ("How do I submit expense reports?" : String).data = true ∧
    (determineAction (analyzeQuery ("How do I submit expense reports?" : String).data
      ("user@techconsult.com" : String).data ("Junior" : String).data none)).action = .ALLOW :=
  ⟨by decide,
   (claim3_expense_policy_precedence _ _ _ none (by decide)).2.2⟩

/-! ### Claim C1 -/

/-- The counterexample query for C1: it matches an aggregate-salary
pattern, and it also matches an expense-policy pattern. -/
def c1query : Str :=
  ("How do I submit expense reports? Also who makes the most" : String).data

/-- Counterexample to claim C1 as stated: this query matches an
aggregate-salary pattern, yet the pipeline returns ALLOW (the
expense-policy check runs first and short-circuits), so not every query
matching an aggregate pattern is denied. -/
theorem claim1_counterexample :
    searchAnyB aggregate_salary_patterns c1query = true ∧
    (determineAction (analyzeQuery c1query ("user@techconsult.com" : String).data
      ("Admin" : String).data none)).action = .ALLOW := by
  constructor
  · decide
  · decide

/-- Claim C1, amended: for every role and classifier result, a query
matching an aggregate-salary pattern that matches no expense-policy
pattern and does not trigger the generic safe-policy check is denied. -/
theorem claim1_aggregate_deny (q e r : Str) (llm : Option IntentClassification)
    (hE : searchAnyB expense_policy_patterns q = false)
    (hS : safeContextHit (lowerStr q) = false)
    (hA : searchAnyB aggregate_salary_patterns q = true) :
    (determineAction (analyzeQuery q e r llm)).action = .DENY := by
  have ha : analyzeQuery q e r llm =
      { baseAnalysis q e r with is_aggregate_salary_query := true,
                                is_salary_related := true, is_financial := true } := by
    unfold analyzeQuery; simp [hE, hS, hA]
  rw [ha]; rfl

/-- Witness for the amended C1 at the example of the specification. -/
theorem claim1_witness :
    searchAnyB expense_policy_patterns
      ("Who earns the highest salary in sales?" : String).data = false ∧
    safeContextHit (lowerStr ("Who earns the highest salary in sales?" : String).data) = false ∧
    searchAnyB aggregate_salary_patterns
      ("Who earns the highest salary in sales?" : String).data = true ∧
    (determineAction (analyzeQuery ("Who earns the highest salary in sales?" : String).data
      ("user@techconsult.com" : String).data ("Admin" : String).data none)).action = .DENY :=
  ⟨by decide, by decide, by decide,
   claim1_aggregate_deny _ _ _ none (by decide) (by decide) (by decide)⟩

/-! ### Claim C5 -/

/-- Counterexample to claim C5 as stated: the query "i receive" matches
a self-reference pattern, yet the pipeline returns ALLOW_WITH_SCREENING
for every role (shown here at role Admin), because the fast path for
queries without financial keywords returns before the self-reference
check runs. -/
theorem claim5_counterexample :
    searchAnyB self_reference_patterns ("i receive" : String).data = true ∧
    (determineAction (analyzeQuery ("i receive" : String).data
      ("user@techconsult.com" : String).data ("Admin" : String).data
      none)).action = .ALLOW_WITH_SCREENING := by
  constructor
  · decide
  · decide

/-- Claim C5, amended: with the classifier absent, a query matching a
self-reference pattern that carries a financial signal (a financial
keyword or one of the first five financial patterns) and does not match
the expense-policy, safe-policy or aggregate checks yields
ALLOW_WITH_EMAIL_CHECK for every role. -/
theorem claim5_self_deferral (q e r : Str)
    (hSelf : searchAnyB self_reference_patterns q = true)
    (hE : searchAnyB expense_policy_patterns q = false)
    (hS : safeContextHit (lowerStr q) = false)
    (hA : searchAnyB aggregate_salary_patterns q = false)
    (hF : (hasAnyKw financial_keywords (lowerStr q) ||
           searchAnyB (financial_patterns.take 5) q) = true) :
    (determineAction (analyzeQuery q e r none)).action = .ALLOW_WITH_EMAIL_CHECK := by
  have hq : analyzeQuery q e r none =
      regexAnalysis q (lowerStr q) (hasAnyKw financial_keywords (lowerStr q))
        (baseAnalysis q e r) := by
    unfold analyzeQuery
    have hcond : (!hasAnyKw financial_keywords (lowerStr q) &&
        !searchAnyB (financial_patterns.take 5) q) = false := by
      rcases Bool.or_eq_true_iff.mp hF with h | h <;> simp [h]
    simp [hE, hS, hA, hcond]
  rw [hq]
  have hpol : (regexAnalysis q (lowerStr q) (hasAnyKw financial_keywords (lowerStr q))
      (baseAnalysis q e r)).is_policy_context = false := by
    rw [regexAnalysis_policy]; rfl
  have hagg : (regexAnalysis q (lowerStr q) (hasAnyKw financial_keywords (lowerStr q))
      (baseAnalysis q e r)).is_aggregate_salary_query = false := by
    rw [regexAnalysis_aggregate]; rfl
  have hfin := regexAnalysis_financial_of q (lowerStr q)
    (hasAnyKw financial_keywords (lowerStr q)) (baseAnalysis q e r) hF
  have hself := regexAnalysis_self_of q (lowerStr q)
    (hasAnyKw financial_keywords (lowerStr q)) (baseAnalysis q e r) hSelf hF
  unfold determineAction
  simp [hpol, hagg, hfin, hself]

/-- Witness for the amended C5 at the query of the specification,
"What is my salary" phrased with an apostrophe. -/
theorem claim5_witness :
    searchAnyB self_reference_patterns
      (("What" : String).data ++ apos :: ("s my salary?" : String).data) = true ∧
    (determineAction (analyzeQuery
      (("What" : String).data ++ apos :: ("s my salary?" : String).data)
      ("user@techconsult.com" : String).data ("Junior" : String).data
      none)).action = .ALLOW_WITH_EMAIL_CHECK :=
  ⟨by decide,
   claim5_self_deferral _ _ _ (by decide) (by decide) (by decide) (by decide) (by decide)⟩

/-! ### Branch equations for `analyzeQuery` and claims C4, C6 -/

theorem applyIntent_policy_of_ne (res : IntentClassification) (a : QueryAnalysis)
    (h : res.intent ≠ .policy_procedure) :
    (applyIntent res a).is_policy_context = a.is_policy_context := by
  unfold applyIntent; cases hi : res.intent <;> simp_all

theorem applyIntent_financial_of_pp (res : IntentClassification) (a : QueryAnalysis)
    (h : res.intent = .policy_procedure) :
    (applyIntent res a).is_financial = false := by
  unfold applyIntent; rw [h]

theorem classifierReturn_policy (q ql : Str) (res : IntentClassification)
    (a : QueryAnalysis) :
    (classifierReturn q ql res a).is_policy_context = a.is_policy_context := by
  unfold classifierReturn
  rw [criticalFix_policy, checkSelfReference_policy, extractPersonDetails_policy]

theorem classifierReturn_financial_of_pp (q ql : Str) (res : IntentClassification)
    (a : QueryAnalysis) (h : res.intent = .policy_procedure) :
    (classifierReturn q ql res a).is_financial = a.is_financial := by
  unfold classifierReturn
  rw [criticalFix_of_not_personal _ _ _ (by rw [h]; intro hc; cases hc),
    checkSelfReference_financial, extractPersonDetails_financial]

/-- The analyzer returns from the classifier branch exactly when the
classifier is confident beyond 0.8 (strictly). -/
theorem analyzeQuery_classifier_branch (q e r : Str) (res : IntentClassification)
    (hE : searchAnyB expense_policy_patterns q = false)
    (hS : safeContextHit (lowerStr q) = false)
    (hA : searchAnyB aggregate_salary_patterns q = false)
    (hF : (hasAnyKw financial_keywords (lowerStr q) ||
           searchAnyB (financial_patterns.take 5) q) = true)
    (hc : res.confidence > confThreshold) :
    analyzeQuery q e r (some res) =
      classifierReturn q (lowerStr q) res (applyIntent res (baseAnalysis q e r)) := by
  unfold analyzeQuery
  have hcond : (!hasAnyKw financial_keywords (lowerStr q) &&
      !searchAnyB (financial_patterns.take 5) q) = false := by
    rcases Bool.or_eq_true_iff.mp hF with h | h <;> simp [h]
  simp [hE, hS, hA, hcond, hc]

/-- Below (or at) the threshold the analyzer falls through to the full
regex analysis applied to the intent-updated record. -/
theorem analyzeQuery_fallthrough (q e r : Str) (res : IntentClassification)
    (hE : searchAnyB expense_policy_patterns q = false)
    (hS : safeContextHit (lowerStr q) = false)
    (hA : searchAnyB aggregate_salary_patterns q = false)
    (hF : (hasAnyKw financial_keywords (lowerStr q) ||
           searchAnyB (financial_patterns.take 5) q) = true)
    (hc : res.confidence ≤ confThreshold) :
    analyzeQuery q e r (some res) =
      regexAnalysis q (lowerStr q) (hasAnyKw financial_keywords (lowerStr q))
        (applyIntent res (baseAnalysis q e r)) := by
  unfold analyzeQuery
  have hcond : (!hasAnyKw financial_keywords (lowerStr q) &&
      !searchAnyB (financial_patterns.take 5) q) = false := by
    rcases Bool.or_eq_true_iff.mp hF with h | h <;> simp [h]
  simp [hE, hS, hA, hcond, not_lt.mpr hc]

/-- With no classifier the analyzer runs the full regex analysis on the
fresh record. -/
theorem analyzeQuery_no_classifier (q e r : Str)
    (hE : searchAnyB expense_policy_patterns q = false)
    (hS : safeContextHit (lowerStr q) = false)
    (hA : searchAnyB aggregate_salary_patterns q = false)
    (hF : (hasAnyKw financial_keywords (lowerStr q) ||
           searchAnyB (financial_patterns.take 5) q) = true) :
    analyzeQuery q e r none =
      regexAnalysis q (lowerStr q) (hasAnyKw financial_keywords (lowerStr q))
        (baseAnalysis q e r) := by
  unfold analyzeQuery
  have hcond : (!hasAnyKw financial_keywords (lowerStr q) &&
      !searchAnyB (financial_patterns.take 5) q) = false := by
    rcases Bool.or_eq_true_iff.mp hF with h | h <;> simp [h]
  simp [hE, hS, hA, hcond]

/-- Counterexample to claim C4 as stated: on the query
"expense breakdown" with a policy_procedure classification of
confidence 1/2, the analysis has policy context and is financial at the
same time — the low-confidence classifier fall-through lets the regex
pass re-mark the query financial. -/
theorem claim4_counterexample :
    (analyzeQuery ("expense breakdown" : String).data
      ("user@techconsult.com" : String).data ("Junior" : String).data
      (some ⟨.policy_procedure, mkRat 1 2, [], [], true, false⟩)).is_policy_context = true ∧
    (analyzeQuery ("expense breakdown" : String).data
      ("user@techconsult.com" : String).data ("Junior" : String).data
      (some ⟨.policy_procedure, mkRat 1 2, [], [], true, false⟩)).is_financial = true := by
  constructor
  · decide
  · decide

/-- Claim C4, amended: the invariant that policy context forces
non-financial holds for every analysis whose classifier result is
absent or is not a policy_procedure result at confidence at most 0.8
(the counterexample shows it fails there). -/
theorem claim4_policy_forces_nonfinancial (q e r : Str)
    (llm : Option IntentClassification)
    (hllm : ∀ res, llm = some res → res.intent = .policy_procedure →
      res.confidence > confThreshold) :
    (analyzeQuery q e r llm).is_policy_context = true →
    (analyzeQuery q e r llm).is_financial = false := by
  by_cases hE : searchAnyB expense_policy_patterns q = true
  · have : analyzeQuery q e r llm =
        { baseAnalysis q e r with is_policy_context := true, is_financial := false,
                                  is_salary_related := false } := by
      unfold analyzeQuery; simp [hE]
    rw [this]; intro; rfl
  have hE' : searchAnyB expense_policy_patterns q = false := by
    simpa using hE
  by_cases hS : safeContextHit (lowerStr q) = true
  · have : analyzeQuery q e r llm =
        { baseAnalysis q e r with is_policy_context := true, is_financial := false,
                                  is_salary_related := false } := by
      unfold analyzeQuery; simp [hE', hS]
    rw [this]; intro; rfl
  have hS' : safeContextHit (lowerStr q) = false := by simpa using hS
  by_cases hA : searchAnyB aggregate_salary_patterns q = true
  · have : analyzeQuery q e r llm =
        { baseAnalysis q e r with is_aggregate_salary_query := true,
                                  is_salary_related := true, is_financial := true } := by
      unfold analyzeQuery; simp [hE', hS', hA]
    rw [this]; intro h; cases h
  have hA' : searchAnyB aggregate_salary_patterns q = false := by simpa using hA
  by_cases hFast : (!hasAnyKw financial_keywords (lowerStr q) &&
      !searchAnyB (financial_patterns.take 5) q) = true
  · have : analyzeQuery q e r llm =
        { extractPersonDetails q (baseAnalysis q e r) with
            is_financial := false, is_salary_related := false } := by
      unfold analyzeQuery; simp [hE', hS', hA', hFast]
    rw [this]; intro; rfl
  have hF : (hasAnyKw financial_keywords (lowerStr q) ||
      searchAnyB (financial_patterns.take 5) q) = true := by
    have hFast2 : (!hasAnyKw financial_keywords (lowerStr q) &&
        !searchAnyB (financial_patterns.take 5) q) = false := by simpa using hFast
    rcases hkw : hasAnyKw financial_keywords (lowerStr q) <;>
      rcases hp5 : searchAnyB (financial_patterns.take 5) q <;> simp_all
  cases llm with
  | none =>
      rw [analyzeQuery_no_classifier q e r hE' hS' hA' hF]
      rw [regexAnalysis_policy]
      intro h; cases h
  | some res =>
      by_cases hc : res.confidence > confThreshold
      · rw [analyzeQuery_classifier_branch q e r res hE' hS' hA' hF hc]
        by_cases hi : res.intent = .policy_procedure
        · intro; rw [classifierReturn_financial_of_pp _ _ _ _ hi,
            applyIntent_financial_of_pp _ _ hi]
        · rw [classifierReturn_policy, applyIntent_policy_of_ne _ _ hi]
          intro h; cases h
      · have hi : res.intent ≠ .policy_procedure := by
          intro hpp; exact hc (hllm res rfl hpp)
        rw [analyzeQuery_fallthrough q e r res hE' hS' hA' hF (not_lt.mp hc)]
        rw [regexAnalysis_policy, applyIntent_policy_of_ne _ _ hi]
        intro h; cases h

/-- Witness for the amended C4: a plain leave-policy question with no
classifier is policy context and not financial. -/
theorem claim4_witness :
    (analyzeQuery ("what is the leave policy" : String).data
      ("user@techconsult.com" : String).data ("Junior" : String).data
      none).is_policy_context = true ∧
    (analyzeQuery ("what is the leave policy" : String).data
      ("user@techconsult.com" : String).data ("Junior" : String).data
      none).is_financial = false :=
  ⟨by decide,
   claim4_policy_forces_nonfinancial _ _ _ none (by intro res h; cases h) (by decide)⟩

/-- The counterexample classification for C6: financial_data at
confidence exactly 0.8. -/
def c6res : IntentClassification := ⟨.financial_data, mkRat 8 10, [], [], false, true⟩

/-- Counterexample to claim C6 as stated: at confidence exactly 0.8 —
which the claim counts as short-circuiting — the analyzer does not
return the classifier-branch analysis: on "what about income" the two
analyses differ (the regex fall-through additionally marks the query
salary related). -/
theorem claim6_counterexample :
    c6res.confidence ≥ (0.8 : ℚ) ∧
    analyzeQuery ("what about income" : String).data
        ("user@techconsult.com" : String).data ("Junior" : String).data (some c6res) ≠
      classifierReturn ("what about income" : String).data
        (lowerStr ("what about income" : String).data) c6res
        (applyIntent c6res (baseAnalysis ("what about income" : String).data
          ("user@techconsult.com" : String).data ("Junior" : String).data)) := by
  constructor
  · norm_num [c6res, mkRat]
  · decide

/-- Claim C6, amended: strictly above confidence 0.8 the classifier
branch short-circuits and its analysis is returned; at or below 0.8,
or with the classifier absent, the analyzer falls through to the full
regex analysis (stated on the non-short-circuiting prefix of the
pipeline: no expense, safe-policy or aggregate hit, and a financial
signal present). -/
theorem claim6_confidence_gate (q e r : Str)
    (hE : searchAnyB expense_policy_patterns q = false)
    (hS : safeContextHit (lowerStr q) = false)
    (hA : searchAnyB aggregate_salary_patterns q = false)
    (hF : (hasAnyKw financial_keywords (lowerStr q) ||
           searchAnyB (financial_patterns.take 5) q) = true) :
    confThreshold = (0.8 : ℚ) ∧
    (∀ res : IntentClassification,
      (res.confidence > confThreshold →
        analyzeQuery q e r (some res) =
          classifierReturn q (lowerStr q) res
            (applyIntent res (baseAnalysis q e r))) ∧
      (res.confidence ≤ confThreshold →
        analyzeQuery q e r (some res) =
          regexAnalysis q (lowerStr q) (hasAnyKw financial_keywords (lowerStr q))
            (applyIntent res (baseAnalysis q e r)))) ∧
    analyzeQuery q e r none =
      regexAnalysis q (lowerStr q) (hasAnyKw financial_keywords (lowerStr q))
        (baseAnalysis q e r) := by
  refine ⟨confThreshold_eq, fun res => ⟨fun hc => ?_, fun hc => ?_⟩, ?_⟩
  · exact analyzeQuery_classifier_branch q e r res hE hS hA hF hc
  · exact analyzeQuery_fallthrough q e r res hE hS hA hF hc
  · exact analyzeQuery_no_classifier q e r hE hS hA hF

/-- Witness for the amended C6 on "what about income": at confidence
0.9 the branch analysis is returned, at 0.8 the regex analysis is. -/
theorem claim6_witness :
    analyzeQuery ("what about income" : String).data
        ("user@techconsult.com" : String).data ("Junior" : String).data
        (some ⟨.financial_data, mkRat 9 10, [], [], false, true⟩) =
      classifierReturn ("what about income" : String).data
        (lowerStr ("what about income" : String).data)
        ⟨.financial_data, mkRat 9 10, [], [], false, true⟩
        (applyIntent ⟨.financial_data, mkRat 9 10, [], [], false, true⟩
          (baseAnalysis ("what about income" : String).data
            ("user@techconsult.com" : String).data ("Junior" : String).data)) ∧
    analyzeQuery ("what about income" : String).data
        ("user@techconsult.com" : String).data ("Junior" : String).data (some c6res) =
      regexAnalysis ("what about income" : String).data
        (lowerStr ("what about income" : String).data)
        (hasAnyKw financial_keywords (lowerStr ("what about income" : String).data))
        (applyIntent c6res (baseAnalysis ("what about income" : String).data
          ("user@techconsult.com" : String).data ("Junior" : String).data)) :=
  ⟨((claim6_confidence_gate _ ("user@techconsult.com" : String).data
      ("Junior" : String).data (by decide) (by decide) (by decide) (by decide)).2.1
      ⟨.financial_data, mkRat 9 10, [], [], false, true⟩).1
      (by norm_num [confThreshold, mkRat]),
   ((claim6_confidence_gate _ ("user@techconsult.com" : String).data
      ("Junior" : String).data (by decide) (by decide) (by decide) (by decide)).2.1
      c6res).2 (le_of_eq rfl)⟩

/-! ### Claim C2 -/

/-- The company-wide financial query of the specification. -/
def revenueQuery : Str := ("What was Q3 revenue?" : String).data

/-- The person-named salary query of the specification. -/
def lisaQuery : Str :=
  ("What is Lisa Park" : String).data ++ apos :: ("s salary?" : String).data

/-- The action of the regex pipeline (classifier absent) for a query
and a role. -/
def pipelineAction (q r : Str) : FilterAction :=
  (determineAction (analyzeQuery q ("user@techconsult.com" : String).data r none)).action

/-- Counterexample to claim C2 as stated: for the company-wide query
"What was Q3 revenue?" a Junior user receives ALLOW_WITH_SCREENING, not
the DENY the claim asserts (lines 554-567 deliberately allow company
financial data to Junior and Senior with screening). -/
theorem claim2_counterexample :
    pipelineAction revenueQuery ("Junior" : String).data = .ALLOW_WITH_SCREENING ∧
    FilterAction.ALLOW_WITH_SCREENING ≠ .DENY := by
  constructor
  · decide
  · decide

/-- Claim C2, amended: for "What was Q3 revenue?" the pipeline returns
ALLOW for Manager and Admin and ALLOW_WITH_SCREENING (not DENY) for
Junior and Senior; for "What is Lisa Park's salary?" it returns
ALLOW_WITH_REDACTION for Manager and Admin and DENY for Junior and
Senior. -/
theorem claim2_role_asymmetry :
    pipelineAction revenueQuery ("Manager" : String).data = .ALLOW ∧
    pipelineAction revenueQuery ("Admin" : String).data = .ALLOW ∧
    pipelineAction revenueQuery ("Junior" : String).data = .ALLOW_WITH_SCREENING ∧
    pipelineAction revenueQuery ("Senior" : String).data = .ALLOW_WITH_SCREENING ∧
    pipelineAction lisaQuery ("Manager" : String).data = .ALLOW_WITH_REDACTION ∧
    pipelineAction lisaQuery ("Admin" : String).data = .ALLOW_WITH_REDACTION ∧
    pipelineAction lisaQuery ("Junior" : String).data = .DENY ∧
    pipelineAction lisaQuery ("Senior" : String).data = .DENY := by
  refine ⟨?_, ?_, ?_, ?_, ?_, ?_, ?_, ?_⟩
  · decide
  · decide
  · decide
  · decide
  · decide
  · decide
  · decide
  · decide

/-! ### Claim C7 -/

set_option maxRecDepth 4000 in
/-- Counterexample to claim C7 as stated: redaction is not idempotent.
On "33kearns 5" the first pass redacts "earns 5"; the trailing word
boundary of the `\d+[kKmMbB]\b` pattern then matches "33k" against the
opening bracket of the inserted marker, so a second pass changes the
string again. -/
theorem claim7_counterexample :
    (filterSalaryFromPersonResponse
        (filterSalaryFromPersonResponse ("33kearns 5" : String).data).1).1 ≠
      (filterSalaryFromPersonResponse ("33kearns 5" : String).data).1 := by
  decide

/-- Claim C7, amended: no financial pattern matches the redaction
marker itself — filtering the bare marker returns it unchanged and
reports no filtering — but full idempotence fails, because a span can
become matchable when a redaction marker ends the word right after it
(see the counterexample). -/
theorem claim7_marker_fixed_point :
    filterSalaryFromPersonResponse redactionMarker = (redactionMarker, false) := by
  decide

/-! ### Claim C8 -/

/-- Claim C8: with auditing enabled (the default configuration), every
`process_query` call — for every timestamp, query, email, role,
classifier result and document context, hence every decision outcome
including ALLOW — produces exactly one audit entry, and its
`action_taken` is the `.value` string of the action of the returned
decision. -/
theorem claim8_audit_completeness (now q e r : Str)
    (llm : Option IntentClassification) (ctx : Option Str) :
    ∃ entry : AuditEntry,
      (processQuery true now q e r llm ctx).audit_entry = some entry ∧
      entry.action_taken =
        FilterAction.value (processQuery true now q e r llm ctx).rule_result.action := by
  exact ⟨_, rfl, rfl⟩

/-! ### Claim C9 -/

/-- Claim C9: on any analysis that is not policy context, a user whose
role lowercases to junior or senior never receives the plain ALLOW
action: every decision for them is screened, email-checked, redacted or
denied. -/
theorem claim9_junior_senior_never_plain_allow (a : QueryAnalysis)
    (hpol : a.is_policy_context = false)
    (hrole : lowerStr a.user_role = ("junior" : String).data ∨
             lowerStr a.user_role = ("senior" : String).data) :
    (determineAction a).action ≠ .ALLOW := by
  unfold determineAction
  rcases hrole with h | h <;>
    cases hfin : a.is_financial <;>
    cases hagg : a.is_aggregate_salary_query <;>
    cases hself : a.is_self_data_request <;>
    cases hpsq : a.is_person_salary_query <;>
      simp [hpol, hfin, hagg, hself, hpsq, h] <;>
      split <;> simp

/-- Witness for C9 at a concrete non-policy analysis of a Junior user. -/
theorem claim9_witness :
    (baseAnalysis ("hello team" : String).data ("user@techconsult.com" : String).data
      ("Junior" : String).data).is_policy_context = false ∧
    lowerStr (baseAnalysis ("hello team" : String).data
      ("user@techconsult.com" : String).data
      ("Junior" : String).data).user_role = ("junior" : String).data ∧
    (determineAction (baseAnalysis ("hello team" : String).data
      ("user@techconsult.com" : String).data
      ("Junior" : String).data)).action ≠ .ALLOW :=
  ⟨by decide, by decide,
   claim9_junior_senior_never_plain_allow _ (by decide) (Or.inl (by decide))⟩

/-! ### Claim C10 -/

/-- Claim C10: `verify_email_in_context` returns true when, for
non-empty email and context, either the full email occurs
case-insensitively in the context or the username before the at-sign is
longer than two characters and occurs case-insensitively in the
context; a context containing only the bare username passes; and the
check returns false whenever the email or the context is empty. -/
theorem claim10_verify_email :
    (∀ e c : Str, e ≠ [] → c ≠ [] →
      (isSubstr (lowerStr e) (lowerStr c) = true ∨
        ((emailUsername e).length > 2 ∧
          isSubstr (emailUsername e) (lowerStr c) = true)) →
      verifyEmailInContext e c = true) ∧
    verifyEmailInContext ("john@techconsult.com" : String).data
      ("employee record: john, engineering" : String).data = true ∧
    (∀ c : Str, verifyEmailInContext [] c = false) ∧
    (∀ e : Str, verifyEmailInContext e [] = false) := by
  refine ⟨?_, by decide, ?_, ?_⟩
  · intro e c he hc hor
    unfold verifyEmailInContext
    have he' : e.isEmpty = false := by cases e with
      | nil => exact absurd rfl he
      | cons x xs => rfl
    have hc' : c.isEmpty = false := by cases c with
      | nil => exact absurd rfl hc
      | cons x xs => rfl
    rw [he', hc']
    cases hm : isSubstr (lowerStr e) (lowerStr c) with
    | true => simp [hm]
    | false =>
        rcases hor with h1 | ⟨h2, h3⟩
        · rw [h1] at hm; cases hm
        · simp [hm, h2, h3]
  · intro c; rfl
  · intro e; cases e with
    | nil => rfl
    | cons x xs => rfl

/-- Witness for C10: the full email occurring verbatim in the context
verifies. -/
theorem claim10_witness :
    verifyEmailInContext ("jane@techconsult.com" : String).data
      ("records of Jane@TechConsult.com follow" : String).data = true :=
  claim10_verify_email.1 _ _ (by decide) (by decide) (Or.inl (by decide))

end SecureDocChat
